import Mathlib

/-!
Verification of the branch-sync engine in `src/scripts/auto_sync.py`
(class `BranchSyncer`).

The script drives a shared git working copy and a hosting platform through
blocking calls.  We embed it shallowly: every external call site is answered
by a field of an `Env` record (what the remote/platform would reply at that
point of the run of one branch pair), and each method of `BranchSyncer`
becomes a Lean function that returns the ordered trace of external actions it
performed together with its result.  Python exceptions are modelled by
`Except PyExc`; the two handler classes the script distinguishes
(`GitCommandError` first, then the generic `except Exception`, which is what
catches a propagating `GithubException`) are the two constructors of `PyExc`.
Log statements, message texts and PR titles/bodies are not modelled: they
never influence control flow.
-/

namespace AutoSync

/-- A review request (pull request) as the script observes it after
`pr.update()`: its number, its platform state (`pr.state`) and its merge
readiness (`pr.mergeable_state`).  The fields hold the refreshed values,
i.e. what the platform reports once `_merge_pr` has called `pr.update()`. -/
structure PRData where
  number : Nat
  state : String
  mergeableState : String
deriving DecidableEq

/-- Platform answer to `_find_existing_pr` (lines 246-249): the
`get_pulls` query may itself raise a `GithubException`, may find no open
request for the `(head, base)` pair, or returns the one open request. -/
inductive FindResult
  | err
  | notFound
  | found (pr : PRData)
deriving DecidableEq

/-- Platform answer to `gh_repo.create_pull` (line 195): either the created
request, or a raised `GithubException`.  The script classifies the exception
by status code and message text (422 with "A pull request already exists" and
422 with "No commits between" are logged as warnings, anything else as an
error, lines 199-205) but swallows every variant without re-raising, so a
single constructor models all of them. -/
inductive CreateResult
  | ok (pr : PRData)
  | exn
deriving DecidableEq

/-- Observable result of the trial merge
`git merge origin/<base> --no-commit --no-ff` (line 89).
`ok`: the command succeeds (a merge is in progress, stopped before commit).
`err diffFiles abortOk`: the command raised `GitCommandError`; `diffFiles`
is what `git diff --name-only --diff-filter=U` (line 94) then reports, and
`abortOk` tells whether the following `git merge --abort` (line 96)
succeeds.  Per git semantics the abort succeeds exactly when a merge was
actually started and left in progress, which is the content-conflict case;
a failure such as a missing ref or a gateway error starts no merge, leaves
no unmerged paths (`diffFiles = []`) and makes the abort itself raise. -/
inductive TrialMergeResult
  | ok
  | err (diffFiles : List String) (abortOk : Bool)
deriving DecidableEq

/-- The two exception families `_sync_pair` distinguishes (lines 114-118):
`GitCommandError` (caught first) and everything else caught by the generic
`except Exception` clause; the only other exception source in the embedded
code is a propagating `GithubException`. -/
inductive PyExc
  | gitCmd
  | github
deriving DecidableEq

/-- One external call the script performs, in the order recorded in a trace.
Constructors annotate the exact command of the source:
`fetch` = `repo.remotes.origin.fetch()`;
`checkout r` = `git checkout <r>`;
`pull b` = `git pull origin <b>`;
`revList b d` = `git rev-list origin/<b> ^origin/<d>` (divergence query);
`trialMerge r` = `git merge <r> --no-commit --no-ff`;
`diffUnmerged` = `git diff --name-only --diff-filter=U`;
`abortMerge` = `git merge --abort`;
`createBranch n` = `git checkout -B <n>` (create or force-reset);
`mergeOurs r` = `git merge <r> -Xours --no-ff --no-edit` (one merge command
for the whole merge, conflicts resolved preferring the current branch, merge
commit created automatically without an editor);
`push b force` = `origin.push(b, force=...)`;
`deleteBranch n` = `git branch -D <n>`;
`findPR h b` = `get_pulls(state=open, head=h, base=b)`;
`createPR h b` = `create_pull(head=h, base=b)`;
`refreshPR n` = `pr.update()`;
`mergeRequest n` = `pr.merge()`;
`closePR n` = `pr.edit(state=closed)`.
An action is recorded when the call is issued, whether or not it raises. -/
inductive Action
  | fetch
  | checkout (ref : String)
  | pull (branch : String)
  | revList (base dest : String)
  | trialMerge (ref : String)
  | diffUnmerged
  | abortMerge
  | createBranch (name : String)
  | mergeOurs (ref : String)
  | push (branch : String) (force : Bool)
  | deleteBranch (name : String)
  | findPR (head base : String)
  | createPR (head base : String)
  | refreshPR (number : Nat)
  | mergeRequest (number : Nat)
  | closePR (number : Nat)
deriving DecidableEq

/-- The mutating operations in the sense of the dry-run contract: pushes,
branch creation/deletion, the `-Xours` merge commit, and review-request
creation/merge/closure.  Fetch, checkout, pull, the divergence query, the
trial merge with its abort, and platform reads are diagnostic. -/
def Action.isMutating : Action → Bool
  | .createBranch _ => true
  | .mergeOurs _ => true
  | .push _ _ => true
  | .deleteBranch _ => true
  | .createPR _ _ => true
  | .mergeRequest _ => true
  | .closePR _ => true
  | _ => false

/-- The per-run fields of `BranchSyncer` the embedded methods consult:
the three CLI flags, the configured `conflict_branch_prefix` and the
repository default branch (`gh_repo.default_branch`). -/
structure Syncer where
  dryRun : Bool
  mergePrs : Bool
  autoResolveDocs : Bool
  conflictPfx : String
  defaultBranch : String
deriving DecidableEq

/-- Environment for the run of one branch pair: the answer every external
call site would receive.  `Ok` fields are `false` when that call raises
(`GitCommandError` for git calls, `GithubException` for `updateOk` and
`closeOk`).  At most one `_find_existing_pr` and one `create_pull` happen
per pair, so a single `findRes`/`createRes` suffices. -/
structure Env where
  /-- `origin.fetch()` at line 69. -/
  fetchOk : Bool := true
  /-- is `base` in `origin.refs` (line 71)? -/
  baseOnRemote : Bool := true
  /-- is `dest` in `origin.refs` (line 71)? -/
  destOnRemote : Bool := true
  /-- `git checkout <dest>` at line 76. -/
  checkoutDestOk : Bool := true
  /-- `git pull origin <dest>` at line 77. -/
  pullDestOk : Bool := true
  /-- does the `rev_list` call at line 79 succeed? -/
  revListOk : Bool := true
  /-- the commits reported by `rev_list origin/<base> ^origin/<dest>`. -/
  commitsToMerge : List String := []
  /-- outcome of the trial merge block, lines 89-96. -/
  trialMerge : TrialMergeResult := .ok
  /-- answer to `_find_existing_pr` (lines 246-249). -/
  findRes : FindResult := .notFound
  /-- answer to `create_pull` (line 195). -/
  createRes : CreateResult := .exn
  /-- `pr.update()` at line 214. -/
  updateOk : Bool := true
  /-- `pr.edit(state=closed)` at line 257. -/
  closeOk : Bool := true
  /-- `git checkout <dest>` at line 146 (resolver). -/
  resCheckoutDestOk : Bool := true
  /-- `git pull origin <dest>` at line 147 (resolver). -/
  resPullDestOk : Bool := true
  /-- `git checkout -B <resolution>` at line 150. -/
  checkoutBOk : Bool := true
  /-- `git merge origin/<base> -Xours --no-ff --no-edit` at line 154. -/
  mergeOursOk : Bool := true
  /-- `origin.push(resolution, force=True)` at line 158. -/
  pushOk : Bool := true
  /-- `git checkout <default>` at line 166 (resolver failure cleanup). -/
  cleanupCheckoutOk : Bool := true
  /-- `git checkout <default>` at line 121 (the `finally` block). -/
  finalCheckoutOk : Bool := true
deriving DecidableEq

/-- The resolution branch name of line 132:
the configured prefix, then base with slashes replaced by underscores, the
literal `-into-`, and dest with slashes replaced by underscores. -/
def resolutionBranchName (pfx base dest : String) : String :=
  pfx ++ base.replace "/" "_" ++ "-into-" ++ dest.replace "/" "_"

/-- The guard of line 98:
auto_resolve_docs and conflicting_files and all files start with docs/api/v2/
(a Python truthiness test on the list, i.e. non-emptiness).  The Python
startswith test is embedded as the character-level prefix test on the
underlying character lists. -/
def docsAutoResolvable (autoResolveDocs : Bool) (files : List String) : Bool :=
  autoResolveDocs && !files.isEmpty &&
    files.all (fun f => List.isPrefixOf "docs/api/v2/".data f.data)

/-- The three actions of the merge step. -/
inductive MergeStepAction
  | attemptMerge
  | warnSkip
  | logError
deriving DecidableEq

/-- The `mergeable_state` dispatch of `_merge_pr`, lines 221-244, in source
order: `clean` attempts the merge, `blocked` warns, `dirty` logs an error,
`draft` warns, `unknown` warns, and the final `else` (e.g. `unstable`)
warns. -/
def mergeDecision (state : String) : MergeStepAction :=
  if state = "clean" then .attemptMerge
  else if state = "blocked" then .warnSkip
  else if state = "dirty" then .logError
  else if state = "draft" then .warnSkip
  else if state = "unknown" then .warnSkip
  else .warnSkip

/-- `_merge_pr` (lines 207-244).  Dry-run returns before any platform call.
Otherwise `pr.update()` refreshes the request (its raising propagates); a
request whose state is not `open` is skipped with a warning; otherwise the
`mergeable_state` dispatch runs, and only `clean` issues `pr.merge()` —
whose own success, rejection or `GithubException` (405 or other) is fully
handled inside the method by logging, so nothing propagates from it. -/
def mergePR (s : Syncer) (env : Env) (pr : PRData) : List Action × Except PyExc Unit :=
  if s.dryRun then ([], Except.ok ())
  else if env.updateOk = false then ([Action.refreshPR pr.number], Except.error PyExc.github)
  else if pr.state = "open" then
    match mergeDecision pr.mergeableState with
    | MergeStepAction.attemptMerge =>
        ([Action.refreshPR pr.number, Action.mergeRequest pr.number], Except.ok ())
    | _ => ([Action.refreshPR pr.number], Except.ok ())
  else ([Action.refreshPR pr.number], Except.ok ())

/-- `_create_or_update_pr` (lines 172-205).  Searches first; an existing
request is only (optionally) merged; a missing one is created unless
dry-run; every `GithubException` from `create_pull` is classified and
swallowed (lines 199-205). -/
def createOrUpdatePR (s : Syncer) (env : Env) (head base : String) : List Action × Except PyExc Unit :=
  match env.findRes with
  | FindResult.err => ([Action.findPR head base], Except.error PyExc.github)
  | FindResult.found pr =>
      if s.mergePrs then
        let r := mergePR s env pr
        (Action.findPR head base :: r.1, r.2)
      else ([Action.findPR head base], Except.ok ())
  | FindResult.notFound =>
      if s.dryRun then ([Action.findPR head base], Except.ok ())
      else
        match env.createRes with
        | CreateResult.ok pr =>
            if s.mergePrs then
              let r := mergePR s env pr
              (Action.findPR head base :: Action.createPR head base :: r.1, r.2)
            else ([Action.findPR head base, Action.createPR head base], Except.ok ())
        | CreateResult.exn =>
            ([Action.findPR head base, Action.createPR head base], Except.ok ())

/-- `_close_existing_pr_if_needed` (lines 251-257): find, and close the
found request unless dry-run; a raising `edit` propagates. -/
def closeExistingPRIfNeeded (s : Syncer) (env : Env) (head base : String) : List Action × Except PyExc Unit :=
  match env.findRes with
  | FindResult.err => ([Action.findPR head base], Except.error PyExc.github)
  | FindResult.notFound => ([Action.findPR head base], Except.ok ())
  | FindResult.found pr =>
      if s.dryRun then ([Action.findPR head base], Except.ok ())
      else if env.closeOk then
        ([Action.findPR head base, Action.closePR pr.number], Except.ok ())
      else ([Action.findPR head base, Action.closePR pr.number], Except.error PyExc.github)

/-- The `try` body of `_auto_resolve_docs_conflict` (lines 144-161):
checkout and pull the destination, create/force-reset the resolution
branch from it, merge `origin/<base>` with `-Xours --no-ff --no-edit`,
force-push the branch, then hand off to `_create_or_update_pr` with
`head = resolution branch`, `base = destination`.  Each git failure raises
`GitCommandError` at its call site. -/
def autoResolveTryBody (s : Syncer) (env : Env) (base dest rb : String) : List Action × Except PyExc Unit :=
  if env.resCheckoutDestOk = false then
    ([Action.checkout dest], Except.error PyExc.gitCmd)
  else if env.resPullDestOk = false then
    ([Action.checkout dest, Action.pull dest], Except.error PyExc.gitCmd)
  else if env.checkoutBOk = false then
    ([Action.checkout dest, Action.pull dest, Action.createBranch rb], Except.error PyExc.gitCmd)
  else if env.mergeOursOk = false then
    ([Action.checkout dest, Action.pull dest, Action.createBranch rb,
      Action.mergeOurs ("origin/" ++ base)], Except.error PyExc.gitCmd)
  else if env.pushOk = false then
    ([Action.checkout dest, Action.pull dest, Action.createBranch rb,
      Action.mergeOurs ("origin/" ++ base), Action.push rb true], Except.error PyExc.gitCmd)
  else
    let r := createOrUpdatePR s env rb dest
    ([Action.checkout dest, Action.pull dest, Action.createBranch rb,
      Action.mergeOurs ("origin/" ++ base), Action.push rb true] ++ r.1, r.2)

/-- `_auto_resolve_docs_conflict` (lines 123-170).  Dry-run returns at once
(line 128).  A `GitCommandError` from the body is caught (line 163): the
cleanup checks out the default branch (its own failure propagates) and then
best-effort deletes the local resolution branch, swallowing a failure of the
deletion (lines 167-170).  A `GithubException` from the PR hand-off is not a
`GitCommandError`, so it propagates. -/
def autoResolveDocsConflict (s : Syncer) (env : Env) (base dest : String) : List Action × Except PyExc Unit :=
  if s.dryRun then ([], Except.ok ())
  else
    match (autoResolveTryBody s env base dest (resolutionBranchName s.conflictPfx base dest)).2 with
    | Except.error PyExc.gitCmd =>
        if env.cleanupCheckoutOk then
          ((autoResolveTryBody s env base dest (resolutionBranchName s.conflictPfx base dest)).1 ++
            [Action.checkout s.defaultBranch,
             Action.deleteBranch (resolutionBranchName s.conflictPfx base dest)],
           Except.ok ())
        else
          ((autoResolveTryBody s env base dest (resolutionBranchName s.conflictPfx base dest)).1 ++
            [Action.checkout s.defaultBranch],
           Except.error PyExc.gitCmd)
    | Except.error PyExc.github =>
        ((autoResolveTryBody s env base dest (resolutionBranchName s.conflictPfx base dest)).1,
         Except.error PyExc.github)
    | Except.ok _ =>
        ((autoResolveTryBody s env base dest (resolutionBranchName s.conflictPfx base dest)).1,
         Except.ok ())

/-- The exit kind of the `try` body of `_sync_pair`: which `return` was
taken, or which exception reached the outer handlers. -/
inductive BodyResult
  | retMissing
  | retUpToDate
  | retBlocked (files : List String)
  | retResolved (files : List String)
  | retPRFlow
  | exc (e : PyExc)
deriving DecidableEq

/-- Map the up-to-date path result of `_close_existing_pr_if_needed`. -/
def resultOfClose : Except PyExc Unit → BodyResult
  | Except.ok _ => BodyResult.retUpToDate
  | Except.error e => BodyResult.exc e

/-- Map the no-conflict path result of `_create_or_update_pr`. -/
def resultOfPR : Except PyExc Unit → BodyResult
  | Except.ok _ => BodyResult.retPRFlow
  | Except.error e => BodyResult.exc e

/-- Map the auto-resolve path result of `_auto_resolve_docs_conflict`. -/
def resultOfResolve (files : List String) : Except PyExc Unit → BodyResult
  | Except.ok _ => BodyResult.retResolved files
  | Except.error e => BodyResult.exc e

/-- Trace, resolver-invocation flag and exit kind of the `try` body of
`_sync_pair`. -/
structure BodyRun where
  trace : List Action
  resolverCalled : Bool
  result : BodyResult
deriving DecidableEq

/-- The `try` body of `_sync_pair` (lines 67-112): fetch; skip if a branch
is missing remotely; checkout and pull the destination; divergence query;
if nothing to merge, close any obsolete request and return; otherwise run
the trial merge.  A successful trial merge is aborted and the pair goes to
`_create_or_update_pr`; a raising one is followed by the unmerged-paths
diff and the abort (line 96) whose own failure propagates, then either the
docs auto-resolve guard fires (line 98, setting `resolverCalled`) or the
pair is blocked with a conflict log.  The resolver invocation happens with
the original `(base, dest)` arguments; its swallowed-internal-failure
result is what the body returns with. -/
def syncPairBody (s : Syncer) (env : Env) (base dest : String) : BodyRun :=
  if env.fetchOk = false then
    ⟨[Action.fetch], false, BodyResult.exc PyExc.gitCmd⟩
  else if (env.baseOnRemote && env.destOnRemote) = false then
    ⟨[Action.fetch], false, BodyResult.retMissing⟩
  else if env.checkoutDestOk = false then
    ⟨[Action.fetch, Action.checkout dest], false, BodyResult.exc PyExc.gitCmd⟩
  else if env.pullDestOk = false then
    ⟨[Action.fetch, Action.checkout dest, Action.pull dest], false, BodyResult.exc PyExc.gitCmd⟩
  else if env.revListOk = false then
    ⟨[Action.fetch, Action.checkout dest, Action.pull dest, Action.revList base dest],
     false, BodyResult.exc PyExc.gitCmd⟩
  else if env.commitsToMerge.isEmpty then
    let r := closeExistingPRIfNeeded s env base dest
    ⟨[Action.fetch, Action.checkout dest, Action.pull dest, Action.revList base dest] ++ r.1,
     false, resultOfClose r.2⟩
  else
    match env.trialMerge with
    | TrialMergeResult.ok =>
        let r := createOrUpdatePR s env base dest
        ⟨[Action.fetch, Action.checkout dest, Action.pull dest, Action.revList base dest,
          Action.trialMerge ("origin/" ++ base), Action.abortMerge] ++ r.1,
         false, resultOfPR r.2⟩
    | TrialMergeResult.err files abortOk =>
        if abortOk = false then
          ⟨[Action.fetch, Action.checkout dest, Action.pull dest, Action.revList base dest,
            Action.trialMerge ("origin/" ++ base), Action.diffUnmerged, Action.abortMerge],
           false, BodyResult.exc PyExc.gitCmd⟩
        else if docsAutoResolvable s.autoResolveDocs files then
          let r := autoResolveDocsConflict s env base dest
          ⟨[Action.fetch, Action.checkout dest, Action.pull dest, Action.revList base dest,
            Action.trialMerge ("origin/" ++ base), Action.diffUnmerged, Action.abortMerge] ++ r.1,
           true, resultOfResolve files r.2⟩
        else
          ⟨[Action.fetch, Action.checkout dest, Action.pull dest, Action.revList base dest,
            Action.trialMerge ("origin/" ++ base), Action.diffUnmerged, Action.abortMerge],
           false, BodyResult.retBlocked files⟩

/-- The per-pair outcome after the outer handlers of `_sync_pair`
(lines 114-118) ran: a `GitCommandError` reaching them is logged as a git
failure, any other exception as an unexpected error; the `return` paths
keep their labels. -/
inductive PairOutcome
  | skippedMissingBranch
  | upToDate
  | conflictBlocked (files : List String)
  | conflictAutoResolved (files : List String)
  | prFlow
  | gitFailure
  | unexpectedFailure
deriving DecidableEq

/-- How one `_sync_pair` call ends: normally (all body exceptions are caught
by lines 114-118), or with an exception escaping the method — which can only
come from the `finally` checkout itself (line 121), as it runs outside any
handler. -/
inductive PairResult
  | done (o : PairOutcome)
  | escaped
deriving DecidableEq

/-- Map the body exit kind through the outer handlers. -/
def outcomeOf : BodyResult → PairOutcome
  | BodyResult.retMissing => PairOutcome.skippedMissingBranch
  | BodyResult.retUpToDate => PairOutcome.upToDate
  | BodyResult.retBlocked fs => PairOutcome.conflictBlocked fs
  | BodyResult.retResolved fs => PairOutcome.conflictAutoResolved fs
  | BodyResult.retPRFlow => PairOutcome.prFlow
  | BodyResult.exc PyExc.gitCmd => PairOutcome.gitFailure
  | BodyResult.exc PyExc.github => PairOutcome.unexpectedFailure

/-- Full trace and result of one `_sync_pair` call. -/
structure PairRun where
  trace : List Action
  resolverCalled : Bool
  result : PairResult
deriving DecidableEq

/-- `_sync_pair` (lines 62-121): the body with its handlers, then the
`finally` block, which always issues `git checkout <default_branch>`; if
that checkout raises, the exception escapes `_sync_pair` (the handlers are
already past). -/
def syncPair (s : Syncer) (env : Env) (base dest : String) : PairRun :=
  let r := syncPairBody s env base dest
  { trace := r.trace ++ [Action.checkout s.defaultBranch]
    resolverCalled := r.resolverCalled
    result := if env.finalCheckoutOk then PairResult.done (outcomeOf r.result)
              else PairResult.escaped }

/-- One `base`/`destinations` group of the `branches` configuration list. -/
structure BranchGroup where
  base : String
  destinations : List String
deriving DecidableEq

/-- The pair iteration order of `sync_all` (lines 56-59): each group base
against each of its destinations, in configuration order. -/
def expandPairs : List BranchGroup → List (String × String)
  | [] => []
  | g :: rest => g.destinations.map (fun d => (g.base, d)) ++ expandPairs rest

/-- Run `_sync_pair` over a pair list.  `sync_all` wraps no handler around
the calls, so a pair whose `_sync_pair` escapes aborts the loop: its run is
recorded and the remaining pairs are never processed.  Returns the recorded
runs and whether the loop was aborted. -/
def runPairs (s : Syncer) (envOf : String → String → Env) : List (String × String) → List PairRun × Bool
  | [] => ([], false)
  | p :: rest =>
      match (syncPair s (envOf p.1 p.2) p.1 p.2).result with
      | PairResult.escaped => ([syncPair s (envOf p.1 p.2) p.1 p.2], true)
      | PairResult.done _ =>
          (syncPair s (envOf p.1 p.2) p.1 p.2 :: (runPairs s envOf rest).1,
           (runPairs s envOf rest).2)

/-- `sync_all` (lines 53-60) over the expanded configuration. -/
def syncAll (s : Syncer) (envOf : String → String → Env) (groups : List BranchGroup) : List PairRun × Bool :=
  runPairs s envOf (expandPairs groups)

/-- Every trial merge in a trace is followed, later in the trace, by an
explicit merge abort. -/
def abortsTrials : List Action → Bool
  | [] => true
  | Action.trialMerge _ :: rest => decide (Action.abortMerge ∈ rest) && abortsTrials rest
  | _ :: rest => abortsTrials rest

/-- Is an action the trial merge? -/
def Action.isTrial : Action → Bool
  | .trialMerge _ => true
  | _ => false

/-- A live run with the docs auto-resolution policy enabled. -/
def sLive : Syncer := ⟨false, false, true, "sync/", "main"⟩

/-- A dry run with every optional behavior enabled. -/
def sDry : Syncer := ⟨true, true, true, "sync/", "main"⟩

/-- An open, clean review request. -/
def prClean : PRData := ⟨7, "open", "clean"⟩

/-- A pair whose trial merge conflicts only under docs/api/v2/. -/
def envDocsConflict : Env :=
  { commitsToMerge := ["c1"], trialMerge := TrialMergeResult.err ["docs/api/v2/x.md"] true,
    createRes := CreateResult.ok prClean }

/-- A pair whose trial merge fails for a reason other than a content
conflict: no unmerged paths and the abort itself raises. -/
def envHardFailure : Env :=
  { commitsToMerge := ["c1"], trialMerge := TrialMergeResult.err [] false }

/-- A diverged pair with a clean trial merge and no existing request. -/
def envCreateFlow : Env :=
  { commitsToMerge := ["c1"], trialMerge := TrialMergeResult.ok,
    createRes := CreateResult.ok prClean }

/-- A diverged pair with a clean trial merge and an existing open request. -/
def envFound : Env :=
  { commitsToMerge := ["c1"], trialMerge := TrialMergeResult.ok,
    findRes := FindResult.found prClean }

/-- Every external call succeeds and there is nothing to do. -/
def envAllOk : Env := {}

/-- Everything succeeds except the final cleanup checkout of the
`finally` block. -/
def envCleanupFail : Env := { finalCheckoutOk := false }

/-- A configuration with one base and two destinations. -/
def twoDestGroups : List BranchGroup := [⟨"release", ["main", "dev"]⟩]

/-- The line 98 guard holds exactly when the policy is on, the conflict set
is non-empty, and every conflicting path lies under the protected prefix. -/
theorem docsAutoResolvable_iff (b : Bool) (files : List String) :
    docsAutoResolvable b files = true ↔
      (b = true ∧ files ≠ [] ∧ ∀ f ∈ files, List.isPrefixOf "docs/api/v2/".data f.data = true) := by
  cases files <;> simp [docsAutoResolvable, List.all_eq_true]

/-- The merge step attempts a merge exactly on the clean readiness state. -/
theorem mergeDecision_attempt_iff (m : String) :
    mergeDecision m = MergeStepAction.attemptMerge ↔ m = "clean" := by
  unfold mergeDecision
  split_ifs <;> simp_all

/-- In a dry run `_merge_pr` performs no call at all. -/
theorem mergePR_dry (s : Syncer) (env : Env) (pr : PRData) (h : s.dryRun = true) :
    mergePR s env pr = ([], Except.ok ()) := by
  unfold mergePR
  simp [h]

/-- In a dry run `_create_or_update_pr` only issues the search. -/
theorem createOrUpdatePR_dry (s : Syncer) (env : Env) (hd bs : String) (h : s.dryRun = true) :
    (createOrUpdatePR s env hd bs).1 = [Action.findPR hd bs] := by
  unfold createOrUpdatePR
  cases hf : env.findRes <;> simp [hf, h, mergePR_dry s env _ h]

/-- In a dry run `_close_existing_pr_if_needed` only issues the search. -/
theorem closeExistingPRIfNeeded_dry (s : Syncer) (env : Env) (hd bs : String) (h : s.dryRun = true) :
    (closeExistingPRIfNeeded s env hd bs).1 = [Action.findPR hd bs] := by
  unfold closeExistingPRIfNeeded
  cases hf : env.findRes <;> simp [hf, h]

/-- In a dry run `_auto_resolve_docs_conflict` returns before any call. -/
theorem autoResolveDocsConflict_dry (s : Syncer) (env : Env) (b d : String) (h : s.dryRun = true) :
    autoResolveDocsConflict s env b d = ([], Except.ok ()) := by
  unfold autoResolveDocsConflict
  simp [h]

/-- `_merge_pr` raises no `GitCommandError`. -/
theorem mergePR_no_git_error (s : Syncer) (env : Env) (pr : PRData) :
    (mergePR s env pr).2 ≠ Except.error PyExc.gitCmd := by
  unfold mergePR
  repeat' split
  all_goals simp

/-- `_create_or_update_pr` raises no `GitCommandError`. -/
theorem createOrUpdatePR_no_git_error (s : Syncer) (env : Env) (hd bs : String) :
    (createOrUpdatePR s env hd bs).2 ≠ Except.error PyExc.gitCmd := by
  have hm : ∀ pr, (mergePR s env pr).2 ≠ Except.error PyExc.gitCmd :=
    fun pr => mergePR_no_git_error s env pr
  unfold createOrUpdatePR
  repeat' split
  all_goals simp_all

/-- Every call `_merge_pr` issues targets the request itself. -/
theorem mergePR_trace_mem (s : Syncer) (env : Env) (pr : PRData) (a : Action)
    (ha : a ∈ (mergePR s env pr).1) :
    a = Action.refreshPR pr.number ∨ a = Action.mergeRequest pr.number := by
  unfold mergePR at ha
  repeat' split at ha
  all_goals simp_all

/-- Every call `_create_or_update_pr` issues is the search, a creation that
happens only when the search found nothing and the run is not dry, or a
merge-step call. -/
theorem createOrUpdatePR_trace_mem (s : Syncer) (env : Env) (hd bs : String) (a : Action)
    (ha : a ∈ (createOrUpdatePR s env hd bs).1) :
    a = Action.findPR hd bs ∨
      (a = Action.createPR hd bs ∧ env.findRes = FindResult.notFound ∧ s.dryRun = false) ∨
      (∃ n, a = Action.refreshPR n) ∨ (∃ n, a = Action.mergeRequest n) := by
  unfold createOrUpdatePR at ha
  cases hf : env.findRes with
  | err =>
      rw [hf] at ha
      simp at ha
      simp [ha]
  | found pr =>
      rw [hf] at ha
      by_cases hmp : s.mergePrs = true
      · simp [hmp] at ha
        rcases ha with rfl | hmem
        · simp
        · rcases mergePR_trace_mem s env pr a hmem with h1 | h1 <;> simp [h1]
      · simp [hmp] at ha
        simp [ha]
  | notFound =>
      rw [hf] at ha
      by_cases hd1 : s.dryRun = true
      · simp [hd1] at ha
        simp [ha]
      · simp [hd1] at ha
        have hdf : s.dryRun = false := by revert hd1; cases s.dryRun <;> simp
        cases hc : env.createRes with
        | ok pr =>
            rw [hc] at ha
            by_cases hmp : s.mergePrs = true
            · simp [hmp] at ha
              rcases ha with rfl | rfl | hmem
              · simp
              · simp [hdf]
              · rcases mergePR_trace_mem s env pr a hmem with h1 | h1 <;> simp [h1]
            · simp [hmp] at ha
              rcases ha with rfl | rfl
              · simp
              · simp [hdf]
        | exn =>
            rw [hc] at ha
            simp at ha
            rcases ha with rfl | rfl
            · simp
            · simp [hdf]

/-- Every call `_close_existing_pr_if_needed` issues is the search or the
closing edit. -/
theorem closeExistingPRIfNeeded_trace_mem (s : Syncer) (env : Env) (hd bs : String) (a : Action)
    (ha : a ∈ (closeExistingPRIfNeeded s env hd bs).1) :
    a = Action.findPR hd bs ∨ ∃ n, a = Action.closePR n := by
  unfold closeExistingPRIfNeeded at ha
  repeat' split at ha
  all_goals simp_all
  all_goals rcases ha with rfl | rfl
  all_goals first | exact Or.inl rfl | exact Or.inr ⟨_, rfl⟩

/-- Every call of the resolver try body is one of its five git commands or
comes from the PR hand-off. -/
theorem autoResolveTryBody_trace_mem (s : Syncer) (env : Env) (base dest rb : String) (a : Action)
    (ha : a ∈ (autoResolveTryBody s env base dest rb).1) :
    a = Action.checkout dest ∨ a = Action.pull dest ∨ a = Action.createBranch rb ∨
      a = Action.mergeOurs ("origin/" ++ base) ∨ a = Action.push rb true ∨
      a ∈ (createOrUpdatePR s env rb dest).1 := by
  unfold autoResolveTryBody at ha
  repeat' split at ha
  all_goals simp_all
  all_goals tauto

/-- Every call of `_auto_resolve_docs_conflict` comes from its try body or
its failure cleanup, and it calls nothing in a dry run. -/
theorem autoResolveDocsConflict_trace_mem (s : Syncer) (env : Env) (base dest : String) (a : Action)
    (ha : a ∈ (autoResolveDocsConflict s env base dest).1) :
    s.dryRun = false ∧
      (a ∈ (autoResolveTryBody s env base dest (resolutionBranchName s.conflictPfx base dest)).1 ∨
        a = Action.checkout s.defaultBranch ∨
        a = Action.deleteBranch (resolutionBranchName s.conflictPfx base dest)) := by
  unfold autoResolveDocsConflict at ha
  by_cases hd1 : s.dryRun = true
  · rw [if_pos hd1] at ha
    simp at ha
  · rw [if_neg hd1] at ha
    have hdf : s.dryRun = false := by revert hd1; cases s.dryRun <;> simp
    refine ⟨hdf, ?_⟩
    split at ha
    · split at ha
      · simp at ha
        tauto
      · simp at ha
        tauto
    · left; exact ha
    · left; exact ha

/-- Appending after a non-trial head steps `abortsTrials`. -/
theorem abortsTrials_cons (a : Action) (l : List Action) (h : a.isTrial = false) :
    abortsTrials (a :: l) = abortsTrials l := by
  cases a <;> simp_all [abortsTrials, Action.isTrial]

/-- A trace with no trial merge trivially aborts all of them. -/
theorem abortsTrials_of_no_trial (l : List Action) (h : ∀ a ∈ l, a.isTrial = false) :
    abortsTrials l = true := by
  induction l with
  | nil => rfl
  | cons a t ih =>
      rw [abortsTrials_cons a t (h a (List.mem_cons_self a t))]
      exact ih fun x hx => h x (List.mem_cons_of_mem a hx)

/-- Extending a trace by trial-free actions preserves `abortsTrials`. -/
theorem abortsTrials_append_no_trial (l1 l2 : List Action)
    (h2 : ∀ a ∈ l2, a.isTrial = false) (h1 : abortsTrials l1 = true) :
    abortsTrials (l1 ++ l2) = true := by
  induction l1 with
  | nil => simpa using abortsTrials_of_no_trial l2 h2
  | cons a t ih =>
      by_cases hT : a.isTrial = true
      · cases a <;> simp [Action.isTrial] at hT
        rw [List.cons_append]
        simp only [abortsTrials, Bool.and_eq_true, decide_eq_true_eq] at h1 ⊢
        exact ⟨List.mem_append_left l2 h1.1, ih h1.2⟩
      · have hF : a.isTrial = false := by revert hT; cases a.isTrial <;> simp
        rw [List.cons_append, abortsTrials_cons a _ hF]
        rw [abortsTrials_cons a t hF] at h1
        exact ih h1

/-- Prefixing trial-free actions preserves `abortsTrials`. -/
theorem abortsTrials_no_trial_append (l1 l2 : List Action)
    (h1 : ∀ a ∈ l1, a.isTrial = false) (h2 : abortsTrials l2 = true) :
    abortsTrials (l1 ++ l2) = true := by
  induction l1 with
  | nil => simpa
  | cons a t ih =>
      rw [List.cons_append, abortsTrials_cons a _ (h1 a (List.mem_cons_self a t))]
      exact ih fun x hx => h1 x (List.mem_cons_of_mem a hx)

/-- A trial merge followed by a later abort steps `abortsTrials`. -/
theorem abortsTrials_cons_trial (r : String) (l : List Action)
    (h1 : Action.abortMerge ∈ l) (h2 : abortsTrials l = true) :
    abortsTrials (Action.trialMerge r :: l) = true := by
  simp [abortsTrials, h1, h2]

/-- Introduction form of `abortsTrials_cons`. -/
theorem abortsTrials_cons_of (a : Action) (l : List Action)
    (h : a.isTrial = false) (h2 : abortsTrials l = true) :
    abortsTrials (a :: l) = true := by
  rw [abortsTrials_cons a l h]
  exact h2

/-- `_merge_pr` never performs a trial merge. -/
theorem mergePR_no_trial (s : Syncer) (env : Env) (pr : PRData) :
    ∀ a ∈ (mergePR s env pr).1, a.isTrial = false := by
  intro a ha
  rcases mergePR_trace_mem s env pr a ha with rfl | rfl <;> rfl

/-- `_create_or_update_pr` never performs a trial merge. -/
theorem createOrUpdatePR_no_trial (s : Syncer) (env : Env) (hd bs : String) :
    ∀ a ∈ (createOrUpdatePR s env hd bs).1, a.isTrial = false := by
  intro a ha
  rcases createOrUpdatePR_trace_mem s env hd bs a ha with rfl | ⟨rfl, _, _⟩ | ⟨n, rfl⟩ | ⟨n, rfl⟩ <;> rfl

/-- `_close_existing_pr_if_needed` never performs a trial merge. -/
theorem closeExistingPRIfNeeded_no_trial (s : Syncer) (env : Env) (hd bs : String) :
    ∀ a ∈ (closeExistingPRIfNeeded s env hd bs).1, a.isTrial = false := by
  intro a ha
  rcases closeExistingPRIfNeeded_trace_mem s env hd bs a ha with rfl | ⟨n, rfl⟩ <;> rfl

/-- `_auto_resolve_docs_conflict` never performs a trial merge. -/
theorem autoResolveDocsConflict_no_trial (s : Syncer) (env : Env) (base dest : String) :
    ∀ a ∈ (autoResolveDocsConflict s env base dest).1, a.isTrial = false := by
  intro a ha
  rcases autoResolveDocsConflict_trace_mem s env base dest a ha with ⟨_, hin | rfl | rfl⟩
  · rcases autoResolveTryBody_trace_mem s env base dest _ a hin with
      rfl | rfl | rfl | rfl | rfl | hm
    · rfl
    · rfl
    · rfl
    · rfl
    · rfl
    · exact createOrUpdatePR_no_trial s env _ dest a hm
  · rfl
  · rfl

/-- In every branch of the `_sync_pair` body, each trial merge is later
followed by an explicit abort. -/
theorem syncPairBody_abortsTrials (s : Syncer) (env : Env) (base dest : String) :
    abortsTrials (syncPairBody s env base dest).trace = true := by
  unfold syncPairBody
  repeat' split
  · rfl
  · rfl
  · rfl
  · rfl
  · rfl
  · -- up-to-date path: pre actions ++ close-existing trace, no trial merge
    apply abortsTrials_of_no_trial
    intro a ha
    simp at ha
    rcases ha with rfl | rfl | rfl | rfl | hm
    · rfl
    · rfl
    · rfl
    · rfl
    · exact closeExistingPRIfNeeded_no_trial s env base dest a hm
  · -- clean trial merge: the abort directly follows it
    simp only [List.cons_append, List.nil_append]
    apply abortsTrials_cons_of
    · rfl
    apply abortsTrials_cons_of
    · rfl
    apply abortsTrials_cons_of
    · rfl
    apply abortsTrials_cons_of
    · rfl
    apply abortsTrials_cons_trial
    · exact List.mem_cons_self _ _
    apply abortsTrials_cons_of
    · rfl
    exact abortsTrials_of_no_trial _ (createOrUpdatePR_no_trial s env base dest)
  · -- failing abort after a non-conflict merge failure: still attempted after the diff
    simp only [List.cons_append, List.nil_append]
    apply abortsTrials_cons_of
    · rfl
    apply abortsTrials_cons_of
    · rfl
    apply abortsTrials_cons_of
    · rfl
    apply abortsTrials_cons_of
    · rfl
    apply abortsTrials_cons_trial
    · simp
    rfl
  · -- conflict routed to the resolver: abort precedes the resolver calls
    simp only [List.cons_append, List.nil_append]
    apply abortsTrials_cons_of
    · rfl
    apply abortsTrials_cons_of
    · rfl
    apply abortsTrials_cons_of
    · rfl
    apply abortsTrials_cons_of
    · rfl
    apply abortsTrials_cons_trial
    · simp
    apply abortsTrials_cons_of
    · rfl
    apply abortsTrials_cons_of
    · rfl
    exact abortsTrials_of_no_trial _ (autoResolveDocsConflict_no_trial s env base dest)
  · -- blocked conflict: abort after the diff
    simp only [List.cons_append, List.nil_append]
    apply abortsTrials_cons_of
    · rfl
    apply abortsTrials_cons_of
    · rfl
    apply abortsTrials_cons_of
    · rfl
    apply abortsTrials_cons_of
    · rfl
    apply abortsTrials_cons_trial
    · simp
    rfl

/-- In a dry run the `_sync_pair` body performs no mutating call. -/
theorem syncPairBody_dry_mutation_free (s : Syncer) (env : Env) (base dest : String)
    (h : s.dryRun = true) :
    (syncPairBody s env base dest).trace.all (fun a => !a.isMutating) = true := by
  unfold syncPairBody
  repeat' split
  all_goals simp [Action.isMutating, List.all_append,
    createOrUpdatePR_dry s env base dest h,
    closeExistingPRIfNeeded_dry s env base dest h,
    autoResolveDocsConflict_dry s env base dest h]

/-- The `_sync_pair` body issues a request creation only when the search
found no existing open request. -/
theorem syncPairBody_createPR (s : Syncer) (env : Env) (base dest h2 b2 : String)
    (ha : Action.createPR h2 b2 ∈ (syncPairBody s env base dest).trace) :
    env.findRes = FindResult.notFound := by
  unfold syncPairBody at ha
  repeat' split at ha
  all_goals simp at ha
  · rcases closeExistingPRIfNeeded_trace_mem s env base dest _ ha with h | ⟨n, h⟩ <;> simp at h
  · rcases createOrUpdatePR_trace_mem s env base dest _ ha with h | ⟨h, hf, _⟩ | ⟨n, h⟩ | ⟨n, h⟩
    · simp at h
    · exact hf
    · simp at h
    · simp at h
  · rcases autoResolveDocsConflict_trace_mem s env base dest _ ha with ⟨_, hin | h | h⟩
    · rcases autoResolveTryBody_trace_mem s env base dest _ _ hin with
        h | h | h | h | h | hm
      · simp at h
      · simp at h
      · simp at h
      · simp at h
      · simp at h
      · rcases createOrUpdatePR_trace_mem s env _ dest _ hm with h | ⟨h, hf, _⟩ | ⟨n, h⟩ | ⟨n, h⟩
        · simp at h
        · exact hf
        · simp at h
        · simp at h
    · simp at h
    · simp at h

/-- Claim C5: on every exit path of `_sync_pair` — missing branch, up to
date, conflict (blocked, auto-resolved, or hard failure), request flow, or
any caught exception — the last action of the pair is the checkout of the
repository default branch: the `finally` cleanup is unconditional. -/
theorem cleanup_checkout_on_all_paths (s : Syncer) (env : Env) (base dest : String) :
    (syncPair s env base dest).trace.getLast? = some (Action.checkout s.defaultBranch) := by
  show ((syncPairBody s env base dest).trace ++ [Action.checkout s.defaultBranch]).getLast? = _
  rw [List.getLast?_append_cons]
  rfl

/-- Claim C6: in every run of `_sync_pair`, under every environment, every
trial merge in the trace is followed by an explicit merge abort: a trial
merge is never left committed. -/
theorem trial_merge_always_aborted (s : Syncer) (env : Env) (base dest : String) :
    abortsTrials (syncPair s env base dest).trace = true := by
  show abortsTrials ((syncPairBody s env base dest).trace ++ [Action.checkout s.defaultBranch]) = true
  apply abortsTrials_append_no_trial
  · intro a ha
    simp at ha
    subst ha
    rfl
  · exact syncPairBody_abortsTrials s env base dest

/-- An action of a full `_sync_pair` trace is from the body or is the final
cleanup checkout. -/
theorem syncPair_trace_split (s : Syncer) (env : Env) (base dest : String) (a : Action)
    (ha : a ∈ (syncPair s env base dest).trace) :
    a ∈ (syncPairBody s env base dest).trace ∨ a = Action.checkout s.defaultBranch := by
  have h : a ∈ (syncPairBody s env base dest).trace ++ [Action.checkout s.defaultBranch] := ha
  rcases List.mem_append.mp h with h1 | h1
  · exact Or.inl h1
  · simp at h1
    exact Or.inr h1

/-- Claim C2: with dry-run enabled, for every branch pair and every
environment (hence every scenario), the trace of `_sync_pair` contains no
mutating action — no push, branch creation or deletion, request creation,
merge or closure — while the read-only calls (fetch, divergence query, and
the trial merge with its abort, whenever the pair diverges) still execute. -/
theorem dry_run_no_mutations (s : Syncer) (env : Env) (base dest : String)
    (h : s.dryRun = true) :
    (syncPair s env base dest).trace.all (fun a => !a.isMutating) = true ∧
    (env.fetchOk = true → env.baseOnRemote = true → env.destOnRemote = true →
     env.checkoutDestOk = true → env.pullDestOk = true → env.revListOk = true →
     env.commitsToMerge.isEmpty = false →
       Action.fetch ∈ (syncPair s env base dest).trace ∧
       Action.revList base dest ∈ (syncPair s env base dest).trace ∧
       Action.trialMerge ("origin/" ++ base) ∈ (syncPair s env base dest).trace ∧
       Action.abortMerge ∈ (syncPair s env base dest).trace) := by
  constructor
  · show List.all ((syncPairBody s env base dest).trace ++ [Action.checkout s.defaultBranch])
      (fun a => !a.isMutating) = true
    rw [List.all_append, syncPairBody_dry_mutation_free s env base dest h]
    rfl
  · intro h1 h2 h3 h4 h5 h6 h7
    have hbd : (env.baseOnRemote && env.destOnRemote) = true := by rw [h2, h3]; rfl
    refine ⟨?_, ?_, ?_, ?_⟩ <;>
      · show _ ∈ (syncPairBody s env base dest).trace ++ [Action.checkout s.defaultBranch]
        unfold syncPairBody
        rcases ht : env.trialMerge with _ | ⟨files, abortOk⟩ <;>
          simp [h1, hbd, h4, h5, h6, h7, ht] <;> repeat' split <;> try simp

/-- Claim C1: when the trial merge reports a content conflict with path set
`files`, the resolver is invoked exactly when the auto-resolution policy is
enabled, the set is non-empty, and every path starts with the protected
prefix; in every other conflict case the pair exits as conflict-blocked and
its whole trace is free of mutating actions. -/
theorem resolver_invocation_gating (s : Syncer) (env : Env) (base dest : String)
    (files : List String)
    (h1 : env.fetchOk = true) (h2 : env.baseOnRemote = true) (h3 : env.destOnRemote = true)
    (h4 : env.checkoutDestOk = true) (h5 : env.pullDestOk = true) (h6 : env.revListOk = true)
    (h7 : env.commitsToMerge.isEmpty = false)
    (ht : env.trialMerge = TrialMergeResult.err files true) :
    ((syncPair s env base dest).resolverCalled = true ↔
      (s.autoResolveDocs = true ∧ files ≠ [] ∧
        ∀ f ∈ files, List.isPrefixOf "docs/api/v2/".data f.data = true)) ∧
    (¬(s.autoResolveDocs = true ∧ files ≠ [] ∧
        ∀ f ∈ files, List.isPrefixOf "docs/api/v2/".data f.data = true) →
      (syncPairBody s env base dest).result = BodyResult.retBlocked files ∧
      (syncPair s env base dest).trace.all (fun a => !a.isMutating) = true) := by
  have hbd : (env.baseOnRemote && env.destOnRemote) = true := by rw [h2, h3]; rfl
  constructor
  · constructor
    · intro hcall
      by_cases hg : docsAutoResolvable s.autoResolveDocs files = true
      · exact (docsAutoResolvable_iff s.autoResolveDocs files).mp hg
      · exfalso
        have hg0 : docsAutoResolvable s.autoResolveDocs files = false := by
          revert hg; cases docsAutoResolvable s.autoResolveDocs files <;> simp
        have hres : (syncPair s env base dest).resolverCalled = false := by
          show (syncPairBody s env base dest).resolverCalled = false
          unfold syncPairBody
          simp [h1, hbd, h4, h5, h6, h7, ht, hg0]
        rw [hres] at hcall
        exact Bool.noConfusion hcall
    · intro hprop
      have hg := (docsAutoResolvable_iff s.autoResolveDocs files).mpr hprop
      show (syncPairBody s env base dest).resolverCalled = true
      unfold syncPairBody
      simp [h1, hbd, h4, h5, h6, h7, ht, hg]
  · intro hnot
    have hg0 : docsAutoResolvable s.autoResolveDocs files = false := by
      rcases hq : docsAutoResolvable s.autoResolveDocs files
      · rfl
      · exact absurd ((docsAutoResolvable_iff s.autoResolveDocs files).mp hq) hnot
    constructor
    · unfold syncPairBody
      simp [h1, hbd, h4, h5, h6, h7, ht, hg0]
    · show List.all ((syncPairBody s env base dest).trace ++ [Action.checkout s.defaultBranch])
        (fun a => !a.isMutating) = true
      unfold syncPairBody
      simp [h1, hbd, h4, h5, h6, h7, ht, hg0, Action.isMutating]

/-- Claim C3: a trial-merge failure that is not a content conflict — it
starts no merge, so the unmerged-paths diff is empty and the abort itself
raises — escapes the conflict handler and is caught by the outer
`GitCommandError` handler: the pair ends as a hard git failure, the
resolver is never invoked, and neither the blocked nor the auto-resolve
exit is taken. -/
theorem hard_merge_failure_not_conflict (s : Syncer) (env : Env) (base dest : String)
    (files : List String)
    (h1 : env.fetchOk = true) (h2 : env.baseOnRemote = true) (h3 : env.destOnRemote = true)
    (h4 : env.checkoutDestOk = true) (h5 : env.pullDestOk = true) (h6 : env.revListOk = true)
    (h7 : env.commitsToMerge.isEmpty = false)
    (ht : env.trialMerge = TrialMergeResult.err files false) :
    (syncPair s env base dest).resolverCalled = false ∧
    (syncPairBody s env base dest).result = BodyResult.exc PyExc.gitCmd ∧
    (env.finalCheckoutOk = true →
      (syncPair s env base dest).result = PairResult.done PairOutcome.gitFailure) := by
  have hbd : (env.baseOnRemote && env.destOnRemote) = true := by rw [h2, h3]; rfl
  have hb : syncPairBody s env base dest =
      ⟨[Action.fetch, Action.checkout dest, Action.pull dest, Action.revList base dest,
        Action.trialMerge ("origin/" ++ base), Action.diffUnmerged, Action.abortMerge],
       false, BodyResult.exc PyExc.gitCmd⟩ := by
    unfold syncPairBody
    simp [h1, hbd, h4, h5, h6, h7, ht]
  refine ⟨?_, ?_, ?_⟩
  · show (syncPairBody s env base dest).resolverCalled = false
    rw [hb]
  · rw [hb]
  · intro hfin
    show (if env.finalCheckoutOk then
            PairResult.done (outcomeOf (syncPairBody s env base dest).result)
          else PairResult.escaped) = PairResult.done PairOutcome.gitFailure
    rw [hfin, hb]
    rfl

/-- Claim C4: the readiness dispatch of the merge step maps each readiness
value to exactly one action — clean to attempt-merge, dirty to an error
log, and blocked, draft, unknown and unstable to warn-and-skip — and, for
an open refreshed request outside a dry run, the platform merge call is
issued exactly when the dispatch says attempt-merge. -/
theorem merge_readiness_dispatch (s : Syncer) (env : Env) (pr : PRData)
    (hd : s.dryRun = false) (hu : env.updateOk = true) (hs : pr.state = "open") :
    (mergeDecision "clean" = MergeStepAction.attemptMerge ∧
     mergeDecision "dirty" = MergeStepAction.logError ∧
     mergeDecision "blocked" = MergeStepAction.warnSkip ∧
     mergeDecision "draft" = MergeStepAction.warnSkip ∧
     mergeDecision "unknown" = MergeStepAction.warnSkip ∧
     mergeDecision "unstable" = MergeStepAction.warnSkip) ∧
    (Action.mergeRequest pr.number ∈ (mergePR s env pr).1 ↔
      mergeDecision pr.mergeableState = MergeStepAction.attemptMerge) := by
  refine ⟨by decide, ?_⟩
  unfold mergePR
  rcases hmd : mergeDecision pr.mergeableState <;> simp [hd, hu, hs, hmd]

/-- Claim C10: the merge step issues the platform merge call exactly for a
request that, after the refresh, is open and in the clean readiness state,
outside a dry run; in particular a request whose state is not open is never
merged. -/
theorem merge_only_open_and_clean (s : Syncer) (env : Env) (pr : PRData) :
    Action.mergeRequest pr.number ∈ (mergePR s env pr).1 ↔
      (s.dryRun = false ∧ env.updateOk = true ∧ pr.state = "open" ∧
        pr.mergeableState = "clean") := by
  unfold mergePR
  rcases hd : s.dryRun
  · rcases hu : env.updateOk
    · simp [hd, hu]
    · by_cases hs : pr.state = "open"
      · rcases hmd : mergeDecision pr.mergeableState
        · simp [hd, hu, hs, hmd]
          exact (mergeDecision_attempt_iff pr.mergeableState).mp hmd
        · simp [hd, hu, hs, hmd]
          intro hc
          have hc2 := (mergeDecision_attempt_iff pr.mergeableState).mpr hc
          rw [hc2] at hmd
          exact MergeStepAction.noConfusion hmd
        · simp [hd, hu, hs, hmd]
          intro hc
          have hc2 := (mergeDecision_attempt_iff pr.mergeableState).mpr hc
          rw [hc2] at hmd
          exact MergeStepAction.noConfusion hmd
      · simp [hd, hu, hs]
  · simp [hd]

/-- Claim C7: `_sync_pair` issues a request creation only when the search
found no open request for the pair, and never when the search found one —
the search-before-create discipline that keeps at most one open request
per pair and makes a second run without new commits create no duplicate. -/
theorem request_created_only_if_none_found (s : Syncer) (env : Env) (base dest hd bs : String) :
    (Action.createPR hd bs ∈ (syncPair s env base dest).trace →
      env.findRes = FindResult.notFound) ∧
    (∀ pr, env.findRes = FindResult.found pr →
      Action.createPR hd bs ∉ (syncPair s env base dest).trace) := by
  constructor
  · intro ha
    rcases syncPair_trace_split s env base dest _ ha with h | h
    · exact syncPairBody_createPR s env base dest hd bs h
    · exact absurd h (by simp)
  · intro pr hf ha
    rcases syncPair_trace_split s env base dest _ ha with h | h
    · have h2 := syncPairBody_createPR s env base dest hd bs h
      rw [hf] at h2
      exact FindResult.noConfusion h2
    · exact absurd h (by simp)

/-- Claim C8: outside a dry run, when every git step succeeds the resolver
checks out and pulls the destination, creates or force-resets the
deterministically named resolution branch from it, performs one whole-merge
prefer-ours merge of the base with an automatic commit, force-pushes the
branch, and hands off to the request flow with the resolution branch as
head and the destination as base; the branch name is the configured prefix
followed by base and destination with slashes replaced. -/
theorem auto_resolve_steps (s : Syncer) (env : Env) (base dest : String)
    (hd : s.dryRun = false) (h1 : env.resCheckoutDestOk = true) (h2 : env.resPullDestOk = true)
    (h3 : env.checkoutBOk = true) (h4 : env.mergeOursOk = true) (h5 : env.pushOk = true) :
    (autoResolveDocsConflict s env base dest).1 =
      [Action.checkout dest, Action.pull dest,
       Action.createBranch (resolutionBranchName s.conflictPfx base dest),
       Action.mergeOurs ("origin/" ++ base),
       Action.push (resolutionBranchName s.conflictPfx base dest) true] ++
        (createOrUpdatePR s env (resolutionBranchName s.conflictPfx base dest) dest).1 ∧
    resolutionBranchName s.conflictPfx base dest =
      s.conflictPfx ++ base.replace "/" "_" ++ "-into-" ++ dest.replace "/" "_" := by
  refine ⟨?_, rfl⟩
  unfold autoResolveDocsConflict autoResolveTryBody
  rcases hcr : (createOrUpdatePR s env (resolutionBranchName s.conflictPfx base dest) dest).2
    with e | u
  · cases e
    · exact absurd hcr (createOrUpdatePR_no_git_error s env _ dest)
    · simp [hd, h1, h2, h3, h4, h5, hcr]
  · simp [hd, h1, h2, h3, h4, h5, hcr]

/-- When every pair cleanup checkout succeeds, `runPairs` records one run
per pair and never aborts. -/
theorem runPairs_total (s : Syncer) (envOf : String → String → Env)
    (h : ∀ b d, (envOf b d).finalCheckoutOk = true) (l : List (String × String)) :
    (runPairs s envOf l).2 = false ∧ (runPairs s envOf l).1.length = l.length := by
  induction l with
  | nil => exact ⟨rfl, rfl⟩
  | cons p t ih =>
      have hdone : (syncPair s (envOf p.1 p.2) p.1 p.2).result =
          PairResult.done (outcomeOf (syncPairBody s (envOf p.1 p.2) p.1 p.2).result) := by
        show (if (envOf p.1 p.2).finalCheckoutOk then _ else _) = _
        rw [h p.1 p.2]
        rfl
      unfold runPairs
      simp [hdone, ih]

/-- Counterexample for claim C9: a failure on the cleanup path — the
`finally` checkout of the default branch raising — escapes `_sync_pair`,
and `sync_all` wraps no handler around it, so the first pair of a
two-pair configuration aborts the run and the second pair is never
processed. -/
theorem cleanup_failure_aborts_run :
    (syncAll sLive (fun _ _ => envCleanupFail) twoDestGroups).2 = true ∧
    (syncAll sLive (fun _ _ => envCleanupFail) twoDestGroups).1.length = 1 ∧
    (expandPairs twoDestGroups).length = 2 := by
  refine ⟨rfl, rfl, rfl⟩

/-- Claim C9 (amended): any failure inside the body of a pair — git or
platform error or unexpected exception in the fetch-through-request steps —
is caught by the handlers of `_sync_pair` and does not prevent the
remaining pairs from being processed, provided the final cleanup checkout
itself succeeds; the environments other than the cleanup checkout are
unconstrained, covering every body failure. -/
theorem pair_failures_isolated (s : Syncer) (envOf : String → String → Env)
    (groups : List BranchGroup) (h : ∀ b d, (envOf b d).finalCheckoutOk = true) :
    (syncAll s envOf groups).2 = false ∧
    (syncAll s envOf groups).1.length = (expandPairs groups).length := by
  unfold syncAll
  exact runPairs_total s envOf h (expandPairs groups)

/-- Instance of claim C1 at a concrete conflict confined to the protected
prefix with the policy enabled: the resolver is invoked. -/
theorem resolver_invocation_gating_inst :
    (syncPair sLive envDocsConflict "release" "main").resolverCalled = true :=
  (resolver_invocation_gating sLive envDocsConflict "release" "main" ["docs/api/v2/x.md"]
    rfl rfl rfl rfl rfl rfl rfl rfl).1.mpr (by decide)

/-- Instance of claim C2 at a concrete dry run over a conflicting pair. -/
theorem dry_run_no_mutations_inst :
    (syncPair sDry envDocsConflict "release" "main").trace.all (fun a => !a.isMutating) = true :=
  (dry_run_no_mutations sDry envDocsConflict "release" "main" rfl).1

/-- Instance of claim C3 at a concrete non-conflict trial-merge failure. -/
theorem hard_merge_failure_not_conflict_inst :
    (syncPair sLive envHardFailure "release" "main").resolverCalled = false :=
  (hard_merge_failure_not_conflict sLive envHardFailure "release" "main" []
    rfl rfl rfl rfl rfl rfl rfl rfl).1

/-- Instance of claim C4 at a concrete open clean request. -/
theorem merge_readiness_dispatch_inst :
    mergeDecision "clean" = MergeStepAction.attemptMerge :=
  (merge_readiness_dispatch sLive envAllOk prClean rfl rfl rfl).1.1

/-- Instance of claim C7: in a run that does create a request, the search
had found none. -/
theorem request_created_only_if_none_found_inst :
    envCreateFlow.findRes = FindResult.notFound :=
  (request_created_only_if_none_found sLive envCreateFlow "release" "main" "release" "main").1
    (by decide)

/-- Instance of claim C8 at a concrete successful resolution. -/
theorem auto_resolve_steps_inst :
    (autoResolveDocsConflict sLive envDocsConflict "release" "main").1 =
      [Action.checkout "main", Action.pull "main",
       Action.createBranch (resolutionBranchName "sync/" "release" "main"),
       Action.mergeOurs "origin/release",
       Action.push (resolutionBranchName "sync/" "release" "main") true] ++
        (createOrUpdatePR sLive envDocsConflict
          (resolutionBranchName "sync/" "release" "main") "main").1 :=
  (auto_resolve_steps sLive envDocsConflict "release" "main" rfl rfl rfl rfl rfl rfl).1

/-- Instance of the amended claim C9: with sound cleanups, both configured
pairs are processed. -/
theorem pair_failures_isolated_inst :
    (syncAll sLive (fun _ _ => envAllOk) twoDestGroups).2 = false :=
  (pair_failures_isolated sLive (fun _ _ => envAllOk) twoDestGroups fun _ _ => rfl).1

/-- Instance of claim C10: the concrete open clean request is merged. -/
theorem merge_only_open_and_clean_inst :
    Action.mergeRequest prClean.number ∈ (mergePR sLive envAllOk prClean).1 :=
  (merge_only_open_and_clean sLive envAllOk prClean).mpr (by decide)

end AutoSync
